import Mathlib

/-!
Verification development for the tattle-recommendation-service profile
matching code: a shallow embedding of src/embedding_service.py,
src/vector_db.py and src/main.py.  The externally supplied collaborators
(the sentence-transformer model and the ChromaDB collection) are modelled
by their interfaces: the model is an abstract function from text to a
vector together with a failure flag, and the collection is a list of
entries together with a failure flag that models the store raising on an
operation.  Python floats are modelled as real numbers in the cosine
similarity utility (where square roots appear) and as rationals for the
store-reported distances (keeping those computations decidable); mutable
store state is passed explicitly and raised exceptions are modelled by
Except results.
-/

namespace RecSvc

/-! ## Embedding similarity (src/embedding_service.py, compute_similarity) -/

/-- Dot product of two vectors, as np.dot computes it on equal-length
1-D arrays. -/
def dotList (v1 v2 : List ℝ) : ℝ :=
(List.zipWith (fun a b => a * b) v1 v2).sum

/-- Euclidean norm, as np.linalg.norm computes it: the square root of the
sum of squares of the components. -/
noncomputable def normList (v : List ℝ) : ℝ :=
Real.sqrt (dotList v v)

/-- EmbeddingService.compute_similarity from src/embedding_service.py.
The body computes dot(v1,v2), the two norms, returns 0.0 when either norm
is zero, and otherwise clamps dot/(norm1*norm2) into the interval [0,1]
with max(0.0, min(1.0, similarity)).  A length mismatch makes np.dot
raise; the surrounding try/except catches every exception and returns
0.0, which the first branch models. -/
noncomputable def compute_similarity (embedding1 embedding2 : List ℝ) : ℝ :=
if embedding1.length ≠ embedding2.length then 0
else if normList embedding1 = 0 ∨ normList embedding2 = 0 then 0
else max 0 (min 1 (dotList embedding1 embedding2 /
  (normList embedding1 * normList embedding2)))

theorem dotList_self_nonneg (v : List ℝ) : 0 ≤ dotList v v := by
  induction v with
  | nil => simp [dotList]
  | cons x xs ih =>
      have hx : 0 ≤ x * x := mul_self_nonneg x
      simpa [dotList, List.zipWith, List.sum_cons] using add_nonneg hx ih

theorem normList_nonneg (v : List ℝ) : 0 ≤ normList v :=
  Real.sqrt_nonneg _

theorem normList_sq (v : List ℝ) : normList v * normList v = dotList v v :=
  Real.mul_self_sqrt (dotList_self_nonneg v)

/-- Claim C4: compute_similarity always returns a value in [0,1]; it
returns exactly 0 whenever either input has zero norm; and on
equal-length inputs with nonzero norms it is exactly the clamped cosine
dot(v1,v2)/(|v1| * |v2|). -/
theorem compute_similarity_bounds (v1 v2 : List ℝ) :
    0 ≤ compute_similarity v1 v2 ∧ compute_similarity v1 v2 ≤ 1 ∧
    ((normList v1 = 0 ∨ normList v2 = 0) → compute_similarity v1 v2 = 0) ∧
    (v1.length = v2.length → normList v1 ≠ 0 → normList v2 ≠ 0 →
      compute_similarity v1 v2 =
        max 0 (min 1 (dotList v1 v2 / (normList v1 * normList v2)))) := by
  classical
  refine ⟨?_, ?_, ?_, ?_⟩
  · unfold compute_similarity
    split
    · exact le_refl 0
    · split
      · exact le_refl 0
      · exact le_max_left 0 _
  · unfold compute_similarity
    split
    · exact zero_le_one
    · split
      · exact zero_le_one
      · exact max_le zero_le_one (min_le_left 1 _)
  · intro h
    unfold compute_similarity
    rcases h with h | h <;> simp [h]
  · intro hlen h1 h2
    unfold compute_similarity
    simp [hlen, h1, h2]

/-- Witness for C4 at concrete inputs: the zero vector paired with a unit
vector yields exactly 0, and a unit vector against itself takes the
clamped-cosine form. -/
theorem compute_similarity_bounds_witness :
    compute_similarity [(0 : ℝ)] [(1 : ℝ)] = 0 ∧
    compute_similarity [(1 : ℝ)] [(1 : ℝ)] =
      max 0 (min 1 (dotList [(1 : ℝ)] [(1 : ℝ)] /
        (normList [(1 : ℝ)] * normList [(1 : ℝ)]))) := by
  have hz : normList [(0 : ℝ)] = 0 := by
    simp [normList, dotList]
  have ho : normList [(1 : ℝ)] = 1 := by
    simp [normList, dotList]
  exact ⟨(compute_similarity_bounds [(0 : ℝ)] [(1 : ℝ)]).2.2.1 (Or.inl hz),
    (compute_similarity_bounds [(1 : ℝ)] [(1 : ℝ)]).2.2.2 rfl
      (by rw [ho]; exact one_ne_zero) (by rw [ho]; exact one_ne_zero)⟩

/-- Claim C5: for every vector of nonzero norm, compute_similarity of the
vector with itself equals 1. -/
theorem compute_similarity_self (v : List ℝ) (h : normList v ≠ 0) :
    compute_similarity v v = 1 := by
  classical
  have hdot : dotList v v ≠ 0 := by
    intro h0
    exact h (by simp [normList, h0])
  unfold compute_similarity
  rw [if_neg (by simp), if_neg (by tauto)]
  rw [normList_sq, div_self hdot]
  norm_num

/-- Witness for C5: the one-component unit vector compared with itself
gives similarity 1. -/
theorem compute_similarity_self_witness :
    compute_similarity [(1 : ℝ)] [(1 : ℝ)] = 1 :=
  compute_similarity_self [(1 : ℝ)] (by simp [normList, dotList])

/-! ## Data model (src/models.py) -/

/-- PersonProfileCreate from src/models.py: the request body for adding a
profile. -/
structure PersonProfileCreate where
  name : String
  description : String
  age : Option Int
  location : Option String
deriving DecidableEq

/-- The pydantic Field constraints on PersonProfileCreate: name 1..100
characters, description 10..2000 characters, age (when present) in
[18,100], location (when present) at most 100 characters. -/
def PersonProfileCreate.valid (p : PersonProfileCreate) : Prop :=
  1 ≤ p.name.length ∧ p.name.length ≤ 100 ∧
  10 ≤ p.description.length ∧ p.description.length ≤ 2000 ∧
  (∀ a ∈ p.age, 18 ≤ a ∧ a ≤ 100) ∧
  (∀ l ∈ p.location, l.length ≤ 100)

instance (p : PersonProfileCreate) : Decidable p.valid := by
  unfold PersonProfileCreate.valid
  infer_instance

/-- PersonProfile from src/models.py.  Timestamps are kept as their ISO
strings (datetime.isoformat output); the model never inspects their
structure. -/
structure PersonProfile where
  id : Option String
  name : String
  description : String
  age : Option Int
  location : Option String
  created_at : Option String
deriving DecidableEq

/-- PersonProfileResponse from src/models.py: a profile together with a
similarity score.  The score is a rational, modelling the Python float
1.0 - distance. -/
structure PersonProfileResponse where
  id : String
  name : String
  description : String
  age : Option Int
  location : Option String
  created_at : String
  similarity_score : ℚ
deriving DecidableEq

/-- SimilaritySearchRequest from src/models.py. -/
structure SimilaritySearchRequest where
  query_description : String
  limit : ℕ
  exclude_id : Option String
deriving DecidableEq

/-- SimilaritySearchResponse from src/models.py. -/
structure SimilaritySearchResponse where
  query : String
  results : List PersonProfileResponse
  total_results : ℕ
deriving DecidableEq

/-! ## Embedding service (src/embedding_service.py, generate_embedding)

The sentence-transformer model is external: it is modelled as an abstract
function from text to a vector, plus a flag recording whether
model.encode raises. -/

/-- Interface model of EmbeddingService: embed is the loaded model as an
opaque text-to-vector function, encodeFails models model.encode raising. -/
structure EmbeddingService where
  embed : String → List ℚ
  encodeFails : Bool

/-- Python str.strip(): whitespace removed from both ends, modelled on
the character list of the string. -/
def pyStrip (s : String) : String :=
  String.mk
    (((s.data.dropWhile Char.isWhitespace).reverse.dropWhile
      Char.isWhitespace).reverse)

/-- EmbeddingService.generate_embedding: strips the text, raises
ValueError when the stripped text is empty, then encodes; any encode
failure propagates (the except branch re-raises). -/
def generate_embedding (svc : EmbeddingService) (text : String) :
    Except String (List ℚ) :=
  let t := pyStrip text
  if t == "" then .error "Text cannot be empty"
  else if svc.encodeFails then .error "encode failure"
  else .ok (svc.embed t)

/-! ## The ChromaDB collection (external store, modelled by interface)

The collection is a list of entries in insertion order plus a failure
flag: failing = true models the store raising on the next operation,
which is how store failures reach the Python except branches. -/

/-- Metadata stored with each entry, as built in add_person_profile. -/
structure Metadata where
  name : String
  age : Option Int
  location : Option String
  created_at : String
deriving DecidableEq

/-- One (id, embedding, document, metadata) entry of the collection. -/
structure ChromaEntry where
  id : String
  embedding : List ℚ
  document : String
  metadata : Metadata
deriving DecidableEq

/-- The collection state. -/
structure ChromaCollection where
  entries : List ChromaEntry
  failing : Bool
deriving DecidableEq

/-- collection.add: appends the new entry.  Chroma does not check for an
existing ID here; duplicate IDs are a caller error. -/
def chromaAdd (c : ChromaCollection) (e : ChromaEntry) :
    Except String ChromaCollection :=
  if c.failing then .error "store failure"
  else .ok { c with entries := c.entries ++ [e] }

/-- collection.get(ids=[id]): point lookup by ID. -/
def chromaGet (c : ChromaCollection) (pid : String) :
    Except String (Option ChromaEntry) :=
  if c.failing then .error "store failure"
  else .ok (c.entries.find? (fun e => e.id == pid))

/-- collection.get(limit=n): the first n entries in store-native order. -/
def chromaGetAll (c : ChromaCollection) (limit : ℕ) :
    Except String (List ChromaEntry) :=
  if c.failing then .error "store failure"
  else .ok (c.entries.take limit)

/-- collection.delete(ids=[id]): removes entries with a matching ID.  An
ID that is not present is ignored: per the documented ChromaDB
semantics, deleting a nonexistent ID is a silent no-op, not an error. -/
def chromaDelete (c : ChromaCollection) (pid : String) :
    Except String ChromaCollection :=
  if c.failing then .error "store failure"
  else .ok { c with entries := c.entries.filter (fun e => !(e.id == pid)) }

/-- collection.count. -/
def chromaCount (c : ChromaCollection) : Except String ℕ :=
  if c.failing then .error "store failure"
  else .ok c.entries.length

/-- One hit of collection.query: the parallel distances / documents /
metadatas / ids lists zipped, as the processing loop in
search_similar_profiles consumes them.  Distances are rationals
modelling the store-reported floats. -/
structure QueryHit where
  id : String
  distance : ℚ
  document : String
  metadata : Metadata
deriving DecidableEq

/-! ## VectorDatabase operations (src/vector_db.py)

The uuid4 value and datetime.now() timestamp are external inputs and are
passed as explicit arguments (newId, now).  Operations that mutate the
collection return the new collection state alongside their Python return
value. -/

/-- VectorDatabase.add_person_profile: generates an ID, embeds the
description, builds the metadata (with created_at = now), adds the entry
to the collection, and returns the ID; any exception is logged and
re-raised. -/
def add_person_profile (svc : EmbeddingService) (c : ChromaCollection)
    (newId now : String) (profile : PersonProfileCreate) :
    Except String String × ChromaCollection :=
  match generate_embedding svc profile.description with
  | .error e => (.error e, c)
  | .ok emb =>
      match chromaAdd c
          { id := newId, embedding := emb, document := profile.description,
            metadata := { name := profile.name, age := profile.age,
                          location := profile.location, created_at := now } } with
      | .error e => (.error e, c)
      | .ok c2 => (.ok newId, c2)

/-- VectorDatabase.get_person_profile: looks the ID up and rebuilds a
PersonProfile; returns None when the ID is absent, and ALSO returns None
when the store raises, because the except branch swallows the exception
and returns None. -/
def get_person_profile (c : ChromaCollection) (profile_id : String) :
    Option PersonProfile :=
  match chromaGet c profile_id with
  | .error _ => none
  | .ok none => none
  | .ok (some e) =>
      some { id := some profile_id, name := e.metadata.name,
             description := e.document, age := e.metadata.age,
             location := e.metadata.location,
             created_at := some e.metadata.created_at }

/-- Truthiness of the optional exclude_id string, as Python evaluates
`if exclude_id:` — None and the empty string are falsy. -/
def truthy : Option String → Bool
  | none => false
  | some s => !(s == "")

/-- The PersonProfileResponse built for one query hit inside the
search_similar_profiles loop; the similarity score is 1.0 - distance. -/
def mkResponse (h : QueryHit) : PersonProfileResponse :=
  { id := h.id, name := h.metadata.name, description := h.document,
    age := h.metadata.age, location := h.metadata.location,
    created_at := h.metadata.created_at,
    similarity_score := 1 - h.distance }

/-- The result-processing loop of search_similar_profiles: walk the hits
in store order, skip the hit whose ID equals a truthy exclude_id, append
the response for every other hit, and break as soon as the accumulated
list has reached limit entries. -/
def processHits (exclude_id : Option String) (limit : ℕ)
    (acc : List PersonProfileResponse) :
    List QueryHit → List PersonProfileResponse
  | [] => acc
  | h :: rest =>
      if truthy exclude_id ∧ exclude_id = some h.id then
        processHits exclude_id limit acc rest
      else
        let acc2 := acc ++ [mkResponse h]
        if limit ≤ acc2.length then acc2
        else processHits exclude_id limit acc2 rest

/-- VectorDatabase.search_similar_profiles: embeds the query, asks the
collection for limit + 1 candidates when a truthy exclude_id is given
(limit otherwise, with the where clause only in the former case), and
runs the processing loop; store or embedding failures re-raise.  The
collection.query nearest-neighbour computation is external and passed as
the oracle queryFn (embedding, n_results, where-ne-id) -> hits. -/
def search_similar_profiles (svc : EmbeddingService) (c : ChromaCollection)
    (queryFn : List ℚ → ℕ → Option String → List QueryHit)
    (query_description : String) (limit : ℕ) (exclude_id : Option String) :
    Except String (List PersonProfileResponse) :=
  match generate_embedding svc query_description with
  | .error e => .error e
  | .ok qemb =>
      if c.failing then .error "store failure"
      else
        .ok (processHits exclude_id limit []
          (queryFn qemb (limit + (if truthy exclude_id then 1 else 0))
            (if truthy exclude_id then exclude_id else none)))

/-- VectorDatabase.get_all_profiles: fetches up to limit entries and
rebuilds PersonProfile values; store failures re-raise. -/
def get_all_profiles (c : ChromaCollection) (limit : ℕ) :
    Except String (List PersonProfile) :=
  match chromaGetAll c limit with
  | .error e => .error e
  | .ok es =>
      .ok (es.map (fun e =>
        { id := some e.id, name := e.metadata.name, description := e.document,
          age := e.metadata.age, location := e.metadata.location,
          created_at := some e.metadata.created_at }))

/-- VectorDatabase.delete_person_profile: calls collection.delete and
returns True; the except branch catches a store failure and returns
False.  Nothing checks whether the ID was present. -/
def delete_person_profile (c : ChromaCollection) (profile_id : String) :
    Bool × ChromaCollection :=
  match chromaDelete c profile_id with
  | .error _ => (false, c)
  | .ok c2 => (true, c2)

/-- The value returned by VectorDatabase.get_collection_stats: either the
stats dictionary or the dictionary carrying only an error string. -/
inductive StatsResult where
  | stats (total_profiles : ℕ) (collection_name : String)
      (persist_directory : String)
  | failed (error : String)
deriving DecidableEq

/-- VectorDatabase.get_collection_stats: counts the collection; the
except branch catches a store failure and returns the error dictionary,
so this function never raises. -/
def get_collection_stats (c : ChromaCollection)
    (collection_name persist_directory : String) : StatsResult :=
  match chromaCount c with
  | .error e => .failed e
  | .ok n => .stats n collection_name persist_directory

/-! ## API layer (src/main.py)

Each FastAPI handler is a function from its inputs to an ApiResult: a
200 success with a body, or an HTTPException with its status code and
detail string. -/

/-- Outcome of a handler: a 200 response with a body, or a raised
HTTPException carrying a status code and detail. -/
inductive ApiResult (α : Type) where
  | success (body : α)
  | failure (statusCode : ℕ) (detail : String)
deriving DecidableEq

/-- The HTTP status code of a handler outcome. -/
def apiStatus {α : Type} : ApiResult α → ℕ
  | .success _ => 200
  | .failure s _ => s

/-- POST /profiles: add_person_profile, mapping any raised exception to a
500 Internal error. -/
def add_endpoint (svc : EmbeddingService) (c : ChromaCollection)
    (newId now : String) (profile : PersonProfileCreate) :
    ApiResult String × ChromaCollection :=
  match add_person_profile svc c newId now profile with
  | (.error e, c2) => (.failure 500 ("Failed to add profile: " ++ e), c2)
  | (.ok pid, c2) => (.success pid, c2)

/-- GET /profiles/{id}: get_person_profile, mapping None to a 404; only
an exception raised out of the service would map to 500, and
get_person_profile never raises. -/
def get_profile_endpoint (c : ChromaCollection) (profile_id : String) :
    ApiResult PersonProfile :=
  match get_person_profile c profile_id with
  | none => .failure 404 ("Profile with ID " ++ profile_id ++ " not found")
  | some p => .success p

/-- POST /profiles/search: the handler first checks limit > 50 and raises
a 400, then calls search_similar_profiles, mapping a raised exception to
a 500. -/
def search_endpoint (svc : EmbeddingService) (c : ChromaCollection)
    (queryFn : List ℚ → ℕ → Option String → List QueryHit)
    (req : SimilaritySearchRequest) : ApiResult SimilaritySearchResponse :=
  if 50 < req.limit then .failure 400 "Limit cannot exceed 50"
  else
    match search_similar_profiles svc c queryFn req.query_description
        req.limit req.exclude_id with
    | .error e => .failure 500 ("Failed to search profiles: " ++ e)
    | .ok rs =>
        .success { query := req.query_description, results := rs,
                   total_results := rs.length }

/-- GET /profiles: the handler first checks limit > 1000 and raises a
400, then calls get_all_profiles, mapping a raised exception to a 500. -/
def list_endpoint (c : ChromaCollection) (limit : ℕ) :
    ApiResult (List PersonProfile) :=
  if 1000 < limit then .failure 400 "Limit cannot exceed 1000"
  else
    match get_all_profiles c limit with
    | .error e => .failure 500 ("Failed to retrieve profiles: " ++ e)
    | .ok ps => .success ps

/-- DELETE /profiles/{id}: delete_person_profile, mapping a False return
to a 404. -/
def delete_endpoint (c : ChromaCollection) (profile_id : String) :
    ApiResult String × ChromaCollection :=
  match delete_person_profile c profile_id with
  | (false, c2) =>
      (.failure 404 ("Profile with ID " ++ profile_id ++ " not found"), c2)
  | (true, c2) => (.success profile_id, c2)

/-- GET /stats: returns get_collection_stats; since that function
swallows store failures into its failed dictionary, the 500 branch of
the handler is unreachable and the endpoint always answers 200. -/
def stats_endpoint (c : ChromaCollection)
    (collection_name persist_directory : String) : ApiResult StatsResult :=
  .success (get_collection_stats c collection_name persist_directory)

/-- The JSON body of GET /health: the healthy branch carries the stats
value, the unhealthy branch an error string. -/
inductive HealthBody where
  | healthy (stats : StatsResult)
  | unhealthy (error : String)
deriving DecidableEq

/-- The status string reported in the health body. -/
def healthStatusString : HealthBody → String
  | .healthy _ => "healthy"
  | .unhealthy _ => "unhealthy"

/-- GET /health: calls get_collection_stats inside try/except and would
answer unhealthy if it raised; get_collection_stats never raises (it
swallows store failures into StatsResult.failed), so the handler always
takes the healthy branch and never raises an HTTP error. -/
def health_endpoint (c : ChromaCollection)
    (collection_name persist_directory : String) : HealthBody :=
  .healthy (get_collection_stats c collection_name persist_directory)

/-! ## Concrete fixtures used by witnesses and counterexamples -/

/-- A working embedding service mapping every text to the vector [1]. -/
def wSvc : EmbeddingService := ⟨fun _ => [1], false⟩

/-- An empty, healthy collection. -/
def emptyColl : ChromaCollection := ⟨[], false⟩

/-- A failing store that nevertheless contains the profile p1. -/
def wFailColl : ChromaCollection :=
  ⟨[⟨"p1", [1], "dA", ⟨"A", none, none, "t"⟩⟩], true⟩

/-- A first concrete query hit, at distance 1/4. -/
def wHitA : QueryHit := ⟨"p1", 1/4, "dA", ⟨"A", none, none, "t"⟩⟩

/-- A second concrete query hit, at distance 1/2. -/
def wHitB : QueryHit := ⟨"p2", 1/2, "dB", ⟨"B", none, none, "t"⟩⟩

/-- The two hits, nearest first. -/
def wHits : List QueryHit := [wHitA, wHitB]

/-- A healthy collection holding the two profiles behind wHits. -/
def wColl2 : ChromaCollection :=
  ⟨[⟨"p1", [1], "dA", ⟨"A", none, none, "t"⟩⟩,
    ⟨"p2", [1], "dB", ⟨"B", none, none, "t"⟩⟩], false⟩

/-- A store oracle answering every query with the two hits. -/
def wQF : List ℚ → ℕ → Option String → List QueryHit := fun _ _ _ => wHits

/-! ## Theorems -/

theorem find?_append_fresh (l : List ChromaEntry) (e : ChromaEntry)
    (pid : String) (hid : e.id = pid) (h : ∀ x ∈ l, x.id ≠ pid) :
    (l ++ [e]).find? (fun x => x.id == pid) = some e := by
  induction l with
  | nil => simp [List.find?, hid]
  | cons y ys ih =>
      have hy : (y.id == pid) = false := by
        simpa using h y (List.mem_cons_self y ys)
      simp only [List.cons_append, List.find?, hy]
      exact ih (fun z hz => h z (List.mem_cons_of_mem y hz))

/-- Claim C1: for every valid profile input, a successful AddProfile
followed by GetProfile on the returned ID yields a profile whose name,
description, age and location equal the input and whose created_at is
set (to the insertion timestamp), provided the generated ID is fresh. -/
theorem add_then_get_roundtrip (svc : EmbeddingService)
    (c c2 : ChromaCollection) (newId now : String)
    (p : PersonProfileCreate)
    (_hvalid : p.valid)
    (hfresh : ∀ e ∈ c.entries, e.id ≠ newId)
    (hok : add_person_profile svc c newId now p = (.ok newId, c2)) :
    get_person_profile c2 newId =
      some { id := some newId, name := p.name, description := p.description,
             age := p.age, location := p.location,
             created_at := some now } := by
  unfold add_person_profile chromaAdd at hok
  split at hok
  · simp at hok
  · split at hok
    · simp at hok
    · rename_i xe emb hembq xc c2' hf
      simp only [Prod.mk.injEq] at hok
      obtain ⟨-, hc2⟩ := hok
      subst hc2
      split at hf
      · simp at hf
      · rename_i hfail
        injection hf with hf2
        subst hf2
        unfold get_person_profile chromaGet
        rw [if_neg hfail]
        rw [find?_append_fresh c.entries
          { id := newId, embedding := emb, document := p.description,
            metadata := { name := p.name, age := p.age,
                          location := p.location, created_at := now } }
          newId rfl hfresh]

/-- Witness for C1: a concrete valid profile added to an empty store and
read back. -/
theorem add_then_get_roundtrip_witness :
    get_person_profile
        ⟨[⟨"id-1", [1], "kind and outdoorsy",
           ⟨"Alice", some 30, some "Pune", "t0"⟩⟩], false⟩ "id-1" =
      some { id := some "id-1", name := "Alice",
             description := "kind and outdoorsy", age := some 30,
             location := some "Pune", created_at := some "t0" } :=
  add_then_get_roundtrip ⟨fun _ => [1], false⟩ ⟨[], false⟩
    ⟨[⟨"id-1", [1], "kind and outdoorsy",
       ⟨"Alice", some 30, some "Pune", "t0"⟩⟩], false⟩
    "id-1" "t0" ⟨"Alice", "kind and outdoorsy", some 30, some "Pune"⟩
    (by decide) (by simp) (by rfl)

theorem processHits_none (limit : ℕ) :
    ∀ (hits : List QueryHit) (acc : List PersonProfileResponse),
      acc.length + hits.length ≤ limit →
      processHits none limit acc hits = acc ++ hits.map mkResponse := by
  intro hits
  induction hits with
  | nil => intro acc _; simp [processHits]
  | cons h rest ih =>
      intro acc hle
      rw [processHits, if_neg (by simp [truthy])]
      simp only
      by_cases hb : limit ≤ (acc ++ [mkResponse h]).length
      · rw [if_pos hb]
        have hrest : rest = [] := by
          have h1 : acc.length + (rest.length + 1) ≤ limit := by
            simpa [Nat.add_comm, Nat.add_assoc] using hle
          have h2 : limit ≤ acc.length + 1 := by simpa using hb
          have : rest.length = 0 := by omega
          exact List.length_eq_zero.mp this
        subst hrest
        simp
      · rw [if_neg hb]
        have harg : (acc ++ [mkResponse h]).length + rest.length ≤ limit := by
          rw [List.length_append, List.length_singleton]
          rw [List.length_cons] at hle
          omega
        rw [ih (acc ++ [mkResponse h]) harg]
        simp

theorem processHits_length_le (e : Option String) (limit : ℕ) :
    ∀ (hits : List QueryHit) (acc : List PersonProfileResponse),
      acc.length < limit →
      (processHits e limit acc hits).length ≤ limit := by
  intro hits
  induction hits with
  | nil => intro acc hlt; simpa [processHits] using Nat.le_of_lt hlt
  | cons h rest ih =>
      intro acc hlt
      rw [processHits]
      by_cases hc : truthy e ∧ e = some h.id
      · rw [if_pos hc]
        exact ih acc hlt
      · rw [if_neg hc]
        simp only
        by_cases hb : limit ≤ (acc ++ [mkResponse h]).length
        · rw [if_pos hb]
          simp
          omega
        · rw [if_neg hb]
          exact ih (acc ++ [mkResponse h]) (by simpa using Nat.lt_of_not_le hb)

theorem processHits_mem_ne (x : String) (limit : ℕ) (hx : x ≠ "") :
    ∀ (hits : List QueryHit) (acc : List PersonProfileResponse),
      (∀ r ∈ acc, r.id ≠ x) →
      ∀ r ∈ processHits (some x) limit acc hits, r.id ≠ x := by
  intro hits
  induction hits with
  | nil => intro acc hacc; simpa [processHits] using hacc
  | cons h rest ih =>
      intro acc hacc
      rw [processHits]
      by_cases hc : truthy (some x) ∧ (some x : Option String) = some h.id
      · rw [if_pos hc]
        exact ih acc hacc
      · rw [if_neg hc]
        have hne : h.id ≠ x := by
          intro hEq
          exact hc ⟨by simp [truthy, hx], by rw [hEq]⟩
        have hacc2 : ∀ r ∈ acc ++ [mkResponse h], r.id ≠ x := by
          intro r hr
          rcases List.mem_append.mp hr with hr | hr
          · exact hacc r hr
          · rcases List.mem_singleton.mp hr with rfl
            exact hne
        simp only
        by_cases hb : limit ≤ (acc ++ [mkResponse h]).length
        · rw [if_pos hb]
          exact hacc2
        · rw [if_neg hb]
          exact ih (acc ++ [mkResponse h]) hacc2

/-- Claim C2: a search without exclude_id passes the hits through in
store order (no re-sorting), maps each distance to the similarity score
1 - distance, yields a list ordered by non-increasing similarity score
whenever the store reports the hits nearest-first, and returns exactly
limit results whenever the store holds at least limit profiles. -/
theorem search_no_exclude_spec (svc : EmbeddingService)
    (c : ChromaCollection)
    (queryFn : List ℚ → ℕ → Option String → List QueryHit)
    (qd : String) (limit : ℕ) (qemb : List ℚ) (hits : List QueryHit)
    (res : List PersonProfileResponse)
    (hemb : generate_embedding svc qd = .ok qemb)
    (hfail : c.failing = false)
    (_hlim : 1 ≤ limit)
    (hstore : limit ≤ c.entries.length)
    (hhits : queryFn qemb limit none = hits)
    (hcount : hits.length = min limit c.entries.length)
    (hsorted : hits.Pairwise (fun a b => a.distance ≤ b.distance))
    (hres : search_similar_profiles svc c queryFn qd limit none = .ok res) :
    res = hits.map mkResponse ∧
    res.map (fun r => r.similarity_score) =
      hits.map (fun h => 1 - h.distance) ∧
    res.Pairwise (fun a b => b.similarity_score ≤ a.similarity_score) ∧
    res.length = limit := by
  have hlen : hits.length = limit := by
    rw [hcount]; exact Nat.min_eq_left hstore
  unfold search_similar_profiles at hres
  rw [hemb] at hres
  simp [truthy, hfail] at hres
  have hrw : processHits none limit [] hits = hits.map mkResponse := by
    have := processHits_none limit hits [] (by simp [hlen])
    simpa using this
  rw [hhits, hrw] at hres
  subst hres
  refine ⟨rfl, ?_, ?_, ?_⟩
  · rw [List.map_map]
    rfl
  · exact List.Pairwise.map mkResponse
      (fun a b hab => by
        show (mkResponse b).similarity_score ≤ (mkResponse a).similarity_score
        simpa [mkResponse] using sub_le_sub_left hab 1) hsorted
  · simpa using hlen

/-- Claim C3: a search with a (truthy) exclude_id requests limit + 1
candidates from the store, filters the excluded ID out post-hoc, never
returns the excluded ID, and returns at most limit results. -/
theorem search_exclude_spec (svc : EmbeddingService)
    (c : ChromaCollection)
    (queryFn : List ℚ → ℕ → Option String → List QueryHit)
    (qd : String) (limit : ℕ) (x : String) (qemb : List ℚ)
    (res : List PersonProfileResponse)
    (hx : x ≠ "")
    (hemb : generate_embedding svc qd = .ok qemb)
    (hfail : c.failing = false)
    (hlim : 1 ≤ limit)
    (_hmem : x ∈ (queryFn qemb (limit + 1) (some x)).map QueryHit.id)
    (hres : search_similar_profiles svc c queryFn qd limit (some x) =
      .ok res) :
    res = processHits (some x) limit []
      (queryFn qemb (limit + 1) (some x)) ∧
    (∀ r ∈ res, r.id ≠ x) ∧
    res.length ≤ limit := by
  have hbeq : (x == "") = false := by simp [hx]
  unfold search_similar_profiles at hres
  rw [hemb] at hres
  simp [truthy, hfail, hbeq] at hres
  subst hres
  refine ⟨rfl, ?_, ?_⟩
  · exact processHits_mem_ne x limit hx _ [] (by simp)
  · exact processHits_length_le (some x) limit _ []
      (by simpa using hlim)

/-- Witness for C2: the two-hit store searched with limit 2 and no
exclusion returns both hits, nearest first, with scores 1 - distance. -/
theorem search_no_exclude_spec_witness :
    wHits.map mkResponse = wHits.map mkResponse ∧
    (wHits.map mkResponse).map (fun r => r.similarity_score) =
      wHits.map (fun h => 1 - h.distance) ∧
    (wHits.map mkResponse).Pairwise
      (fun a b => b.similarity_score ≤ a.similarity_score) ∧
    (wHits.map mkResponse).length = 2 :=
  search_no_exclude_spec wSvc wColl2 wQF "hello world" 2 [1] wHits
    (wHits.map mkResponse) rfl rfl (by decide) (by decide) rfl (by decide)
    (by norm_num [wHits, wHitA, wHitB, List.pairwise_cons]) rfl

/-- Witness for C3: excluding p1 with limit 1 returns only p2. -/
theorem search_exclude_spec_witness :
    [mkResponse wHitB] =
      processHits (some "p1") 1 [] (wQF [1] 2 (some "p1")) ∧
    (∀ r ∈ [mkResponse wHitB], r.id ≠ "p1") ∧
    ([mkResponse wHitB] : List PersonProfileResponse).length ≤ 1 :=
  search_exclude_spec wSvc wColl2 wQF "hello world" 1 "p1" [1]
    [mkResponse wHitB] (by decide) rfl rfl (by decide) (by decide) rfl

/-- Claim C6 counterexample: on a failing store that contains profile
p1, GET /profiles/p1 answers 404 Not-Found, not the 500 Internal error
the claim requires for a store failure. -/
theorem store_failure_not_internal_counterexample :
    apiStatus (get_profile_endpoint wFailColl "p1") = 404 ∧
    (404 : ℕ) ≠ 500 := by
  refine ⟨rfl, by decide⟩

/-- Claim C6 as amended: a store failure is surfaced as a 500 Internal
error by AddProfile, SearchMatches and ListProfiles, and an embedding
failure is surfaced as a 500 by AddProfile and SearchMatches (the only
operations that embed); but GetProfile and DeleteProfile convert a store
failure into a 404 Not-Found and Stats converts it into a 200 success
whose body carries the error string.  Each conjunct carries its own
scenario premise: the first six speak about a failing store (the
add/search ones with the embedding succeeding, so the surfaced failure
is the store one), the last two about a failing embedding on any store
state. -/
theorem store_failure_surfacing (svc : EmbeddingService)
    (c : ChromaCollection)
    (queryFn : List ℚ → ℕ → Option String → List QueryHit)
    (newId now : String) (p : PersonProfileCreate)
    (req : SimilaritySearchRequest) (limit : ℕ) (pid nm dir : String)
    (hlim : req.limit ≤ 50) (hlim2 : limit ≤ 1000) :
    (c.failing = true → (pyStrip p.description == "") = false →
      svc.encodeFails = false →
      apiStatus (add_endpoint svc c newId now p).1 = 500) ∧
    (c.failing = true → (pyStrip req.query_description == "") = false →
      svc.encodeFails = false →
      apiStatus (search_endpoint svc c queryFn req) = 500) ∧
    (c.failing = true → apiStatus (list_endpoint c limit) = 500) ∧
    (c.failing = true → apiStatus (get_profile_endpoint c pid) = 404) ∧
    (c.failing = true → apiStatus (delete_endpoint c pid).1 = 404) ∧
    (c.failing = true →
      stats_endpoint c nm dir =
        .success (StatsResult.failed "store failure") ∧
      apiStatus (stats_endpoint c nm dir) = 200) ∧
    (∀ e, generate_embedding svc p.description = .error e →
      apiStatus (add_endpoint svc c newId now p).1 = 500) ∧
    (∀ e, generate_embedding svc req.query_description = .error e →
      apiStatus (search_endpoint svc c queryFn req) = 500) := by
  refine ⟨?_, ?_, ?_, ?_, ?_, ?_, ?_, ?_⟩
  · intro hfail hdesc hemb
    simp [add_endpoint, add_person_profile, generate_embedding, chromaAdd,
      hfail, hdesc, hemb, apiStatus]
  · intro hfail hq hemb
    unfold search_endpoint
    rw [if_neg (by omega)]
    simp [search_similar_profiles, generate_embedding, hq, hemb, hfail,
      apiStatus]
  · intro hfail
    unfold list_endpoint
    rw [if_neg (by omega)]
    simp [get_all_profiles, chromaGetAll, hfail, apiStatus]
  · intro hfail
    simp [get_profile_endpoint, get_person_profile, chromaGet, hfail,
      apiStatus]
  · intro hfail
    simp [delete_endpoint, delete_person_profile, chromaDelete, hfail,
      apiStatus]
  · intro hfail
    constructor
    · simp [stats_endpoint, get_collection_stats, chromaCount, hfail]
    · simp [stats_endpoint, apiStatus]
  · intro e hgen
    unfold add_endpoint add_person_profile
    rw [hgen]
    rfl
  · intro e hgen
    unfold search_endpoint
    rw [if_neg (by omega)]
    unfold search_similar_profiles
    rw [hgen]
    rfl

/-- Witness for the amended C6: the store-failure conjuncts exercised at
a concrete failing store with a working encoder, and the
embedding-failure conjuncts at a failing encoder over a healthy store. -/
theorem store_failure_surfacing_witness :
    apiStatus (add_endpoint wSvc wFailColl "n1" "t1"
      ⟨"A", "a description", none, none⟩).1 = 500 ∧
    apiStatus (search_endpoint wSvc wFailColl wQF
      ⟨"query text", 5, none⟩) = 500 ∧
    apiStatus (list_endpoint wFailColl 10) = 500 ∧
    apiStatus (get_profile_endpoint wFailColl "p1") = 404 ∧
    apiStatus (delete_endpoint wFailColl "p1").1 = 404 ∧
    stats_endpoint wFailColl "person_profiles" "./chroma_db" =
      .success (StatsResult.failed "store failure") ∧
    apiStatus (stats_endpoint wFailColl "person_profiles" "./chroma_db") =
      200 ∧
    apiStatus (add_endpoint ⟨fun _ => [1], true⟩ emptyColl "n1" "t1"
      ⟨"A", "a description", none, none⟩).1 = 500 ∧
    apiStatus (search_endpoint ⟨fun _ => [1], true⟩ emptyColl wQF
      ⟨"query text", 5, none⟩) = 500 := by
  have h1 := store_failure_surfacing wSvc wFailColl wQF "n1" "t1"
    ⟨"A", "a description", none, none⟩ ⟨"query text", 5, none⟩ 10 "p1"
    "person_profiles" "./chroma_db" (by decide) (by decide)
  have h2 := store_failure_surfacing ⟨fun _ => [1], true⟩ emptyColl wQF
    "n1" "t1" ⟨"A", "a description", none, none⟩ ⟨"query text", 5, none⟩
    10 "p1" "person_profiles" "./chroma_db" (by decide) (by decide)
  exact ⟨h1.1 rfl (by decide) rfl, h1.2.1 rfl (by decide) rfl,
    h1.2.2.1 rfl, h1.2.2.2.1 rfl, h1.2.2.2.2.1 rfl,
    (h1.2.2.2.2.2.1 rfl).1, (h1.2.2.2.2.2.1 rfl).2,
    h2.2.2.2.2.2.2.1 "encode failure" rfl,
    h2.2.2.2.2.2.2.2 "encode failure" rfl⟩

/-- Claim C7, evaluated at the failing input: deleting an ID that is not
in the store returns True (the collection delete is a silent no-op), so
DELETE /profiles/{id} answers 200 success, never the claimed 404. -/
theorem delete_nonexistent_returns_success :
    get_person_profile emptyColl "missing-id" = none ∧
    delete_person_profile emptyColl "missing-id" = (true, emptyColl) ∧
    apiStatus (delete_endpoint emptyColl "missing-id").1 = 200 := by
  refine ⟨rfl, ?_, rfl⟩
  simp [delete_person_profile, chromaDelete, emptyColl]

/-- Claim C8, evaluated on every failing store: the health endpoint does
return a normal response, but it reports status healthy with the error
tucked inside the stats body, because get_collection_stats swallows the
store failure before health_check can see it. -/
theorem health_reports_healthy_on_store_failure (c : ChromaCollection)
    (nm dir : String) (hfail : c.failing = true) :
    health_endpoint c nm dir =
      .healthy (StatsResult.failed "store failure") ∧
    healthStatusString (health_endpoint c nm dir) = "healthy" := by
  constructor
  · simp [health_endpoint, get_collection_stats, chromaCount, hfail]
  · rfl

/-- Witness for C8 at the concrete failing store. -/
theorem health_reports_healthy_witness :
    health_endpoint wFailColl "person_profiles" "./chroma_db" =
      .healthy (StatsResult.failed "store failure") ∧
    healthStatusString
      (health_endpoint wFailColl "person_profiles" "./chroma_db") =
      "healthy" :=
  health_reports_healthy_on_store_failure wFailColl "person_profiles"
    "./chroma_db" rfl

/-- Claim C9: the search handler rejects limit > 50 with a 400 and the
list handler rejects limit > 1000 with a 400; at or below the caps each
handler proceeds to the domain call and maps its outcome. -/
theorem limit_caps (svc : EmbeddingService) (c : ChromaCollection)
    (queryFn : List ℚ → ℕ → Option String → List QueryHit)
    (req : SimilaritySearchRequest) (limit : ℕ) :
    (50 < req.limit →
      search_endpoint svc c queryFn req =
        .failure 400 "Limit cannot exceed 50") ∧
    (req.limit ≤ 50 →
      search_endpoint svc c queryFn req =
        (match search_similar_profiles svc c queryFn req.query_description
            req.limit req.exclude_id with
        | .error e => .failure 500 ("Failed to search profiles: " ++ e)
        | .ok rs =>
            .success { query := req.query_description, results := rs,
                       total_results := rs.length })) ∧
    (1000 < limit →
      list_endpoint c limit = .failure 400 "Limit cannot exceed 1000") ∧
    (limit ≤ 1000 →
      list_endpoint c limit =
        (match get_all_profiles c limit with
        | .error e => .failure 500 ("Failed to retrieve profiles: " ++ e)
        | .ok ps => .success ps)) := by
  refine ⟨?_, ?_, ?_, ?_⟩
  · intro h
    unfold search_endpoint
    rw [if_pos h]
  · intro h
    unfold search_endpoint
    rw [if_neg (by omega)]
  · intro h
    unfold list_endpoint
    rw [if_pos h]
  · intro h
    unfold list_endpoint
    rw [if_neg (by omega)]

/-- Witness for C9: limit 51 on search and limit 1001 on list are both
rejected with a 400. -/
theorem limit_caps_witness :
    search_endpoint wSvc emptyColl wQF ⟨"query text", 51, none⟩ =
      .failure 400 "Limit cannot exceed 50" ∧
    list_endpoint emptyColl 1001 = .failure 400 "Limit cannot exceed 1000" :=
  ⟨(limit_caps wSvc emptyColl wQF ⟨"query text", 51, none⟩ 1001).1
      (by decide),
   (limit_caps wSvc emptyColl wQF ⟨"query text", 51, none⟩ 1001).2.2.1
      (by decide)⟩

/-- Claim C10: the embedding is computed before any store insertion, so
when embedding the description fails, AddProfile raises that error and
the store is returned unchanged. -/
theorem add_embedding_failure_atomic (svc : EmbeddingService)
    (c : ChromaCollection) (newId now : String) (p : PersonProfileCreate)
    (e : String)
    (hgen : generate_embedding svc p.description = .error e) :
    add_person_profile svc c newId now p = (.error e, c) := by
  unfold add_person_profile
  rw [hgen]

/-- Witness for C10: a service whose encoder fails leaves the empty
store unchanged. -/
theorem add_embedding_failure_atomic_witness :
    add_person_profile ⟨fun _ => [1], true⟩ emptyColl "n1" "t1"
      ⟨"A", "a description", none, none⟩ =
      (.error "encode failure", emptyColl) :=
  add_embedding_failure_atomic ⟨fun _ => [1], true⟩ emptyColl "n1" "t1"
    ⟨"A", "a description", none, none⟩ "encode failure" rfl

end RecSvc
